import Mathlib

/-!
Verification of the DDL validator (files `DDL_VALIDATOR.py` and
`ddl_validator_v2.py`).

Strings are embedded as `List Char`.  The Python regular expressions used by
the sources are embedded as explicit character-level scanners that reproduce
the semantics of the concrete patterns appearing in the code (greedy and
non-greedy repetition, `re.S`/`re.IGNORECASE` flags, `finditer` scan-and-jump
behaviour, `$` matching at the end of the string or just before a final
newline).  Python dictionaries are embedded as association lists whose insert
overwrites in place (preserving insertion order, as Python dicts do).
-/

namespace DdlValidator

/-- Python strings are modelled as lists of characters. -/
abbrev LC := List Char

/-- Literal helper: the character list of a Lean string literal. -/
def toL (s : String) : LC := s.toList

/-- Python `\s` (ASCII): space, tab, newline, carriage return, vertical tab, form feed. -/
def isSpaceCh (c : Char) : Bool :=
  c.toNat = 32 || c.toNat = 9 || c.toNat = 10 || c.toNat = 13 || c.toNat = 11 || c.toNat = 12

/-- Python `\w` restricted to ASCII (the inputs of this program are ASCII SQL). -/
def isWordCh (c : Char) : Bool :=
  (97 ≤ c.toNat && c.toNat ≤ 122) || (65 ≤ c.toNat && c.toNat ≤ 90) ||
  (48 ≤ c.toNat && c.toNat ≤ 57) || c = '_'

/-- The character class `[\w()]` used for data types in both column patterns. -/
def isWordParenCh (c : Char) : Bool := isWordCh c || c = '(' || c = ')'

/-- ASCII model of `str.lower` on a single character. -/
def asciiLower (c : Char) : Char :=
  match c with
  | 'A' => 'a' | 'B' => 'b' | 'C' => 'c' | 'D' => 'd' | 'E' => 'e' | 'F' => 'f'
  | 'G' => 'g' | 'H' => 'h' | 'I' => 'i' | 'J' => 'j' | 'K' => 'k' | 'L' => 'l'
  | 'M' => 'm' | 'N' => 'n' | 'O' => 'o' | 'P' => 'p' | 'Q' => 'q' | 'R' => 'r'
  | 'S' => 's' | 'T' => 't' | 'U' => 'u' | 'V' => 'v' | 'W' => 'w' | 'X' => 'x'
  | 'Y' => 'y' | 'Z' => 'z'
  | c => c

/-- ASCII model of `str.upper` on a single character. -/
def asciiUpper (c : Char) : Char :=
  match c with
  | 'a' => 'A' | 'b' => 'B' | 'c' => 'C' | 'd' => 'D' | 'e' => 'E' | 'f' => 'F'
  | 'g' => 'G' | 'h' => 'H' | 'i' => 'I' | 'j' => 'J' | 'k' => 'K' | 'l' => 'L'
  | 'm' => 'M' | 'n' => 'N' | 'o' => 'O' | 'p' => 'P' | 'q' => 'Q' | 'r' => 'R'
  | 's' => 'S' | 't' => 'T' | 'u' => 'U' | 'v' => 'V' | 'w' => 'W' | 'x' => 'X'
  | 'y' => 'Y' | 'z' => 'Z'
  | c => c

/-- `str.lower`. -/
def pyLower (l : LC) : LC := l.map asciiLower

/-- `str.upper`. -/
def pyUpper (l : LC) : LC := l.map asciiUpper

/-- `str.strip()`: remove leading and trailing whitespace. -/
def pyStrip (l : LC) : LC :=
  ((l.dropWhile isSpaceCh).reverse.dropWhile isSpaceCh).reverse

/-- Does `l` start with the literal `pat` (case sensitive)? -/
def litPrefixB : LC → LC → Bool
  | [], _ => true
  | _ :: _, [] => false
  | p :: ps, c :: cs => p == c && litPrefixB ps cs

/-- Does `l` start with the literal `pat` case-insensitively (`pat` given in lowercase)? -/
def ciPrefixB : LC → LC → Bool
  | [], _ => true
  | _ :: _, [] => false
  | p :: ps, c :: cs => p == asciiLower c && ciPrefixB ps cs

/-- Python `pat in s` (substring containment, case sensitive). -/
def containsSub (pat : LC) : LC → Bool
  | [] => litPrefixB pat []
  | c :: t => litPrefixB pat (c :: t) || containsSub pat t

/-- Case-insensitive substring containment (`pat` given in lowercase). -/
def containsCI (pat : LC) : LC → Bool
  | [] => ciPrefixB pat []
  | c :: t => ciPrefixB pat (c :: t) || containsCI pat t

/-- Consume the literal `pat` from the front of `l`, returning the remainder. -/
def dropLit : LC → LC → Option LC
  | [], l => some l
  | _ :: _, [] => none
  | p :: ps, c :: cs => if p = c then dropLit ps cs else none

/-- Consume the literal `pat` (lowercase) case-insensitively from the front of `l`. -/
def dropLitCI : LC → LC → Option LC
  | [], l => some l
  | _ :: _, [] => none
  | p :: ps, c :: cs => if p = asciiLower c then dropLitCI ps cs else none

/-- Python `sep.join(parts)`. -/
def joinSep (sep : LC) : List LC → LC
  | [] => []
  | [x] => x
  | x :: xs => x ++ sep ++ joinSep sep xs

/-- Python `str.split()` with no argument: split on whitespace runs, dropping empties. -/
def splitWSAux (acc : LC) : LC → List LC
  | [] => if acc.isEmpty then [] else [acc]
  | c :: t =>
    if isSpaceCh c then
      if acc.isEmpty then splitWSAux [] t else acc :: splitWSAux [] t
    else splitWSAux (acc ++ [c]) t

/-- Python `str.split()`. -/
def splitWS (l : LC) : List LC := splitWSAux [] l

/-- Python `str.split(',')`: split on commas, keeping empty pieces. -/
def splitCommaAux (acc : LC) : LC → List LC
  | [] => [acc]
  | c :: t => if c = ',' then acc :: splitCommaAux [] t else splitCommaAux (acc ++ [c]) t

/-- Python `str.split(',')`. -/
def splitComma (l : LC) : List LC := splitCommaAux [] l

/-- Does `l` end with `suf`? (Python `str.endswith`.) -/
def endsWithB (suf l : LC) : Bool := litPrefixB suf.reverse l.reverse

/-- Python dict assignment `d[k] = v`: overwrite in place if the key exists
(preserving its position, as Python dicts do), otherwise append. -/
def dictInsert {α : Type} : List (LC × α) → LC → α → List (LC × α)
  | [], k, v => [(k, v)]
  | (k', v') :: t, k, v =>
    if k' = k then (k, v) :: t else (k', v') :: dictInsert t k v

/-- Python dict lookup / key membership: first matching key. -/
def dictGet {α : Type} : List (LC × α) → LC → Option α
  | [], _ => none
  | (k', v) :: t, k => if k' = k then some v else dictGet t k

/-- Python truthiness of an optional string: `None` and `""` are falsy. -/
def pyFalsyStrOpt : Option LC → Bool
  | none => true
  | some s => s.isEmpty

/-!
## DDL_VALIDATOR.py — parser (`extract_table_definitions`)

`table_pattern   = re.compile(r'CREATE TABLE\s+(\w+)\s*\((.*?)\);', re.S)`
`column_pattern  = re.compile(r'(\w+)\s+([\w\(\)]+)\s*(.*?)(?:,|$)', re.S)`
`primary_key_pattern = re.compile(r'PRIMARY KEY\s*\((.*?)\)')`
`foreign_key_pattern = re.compile(r'FOREIGN KEY\s*\((.*?)\)\s*REFERENCES\s+(\w+)\s*\((.*?)\)')`
-/

/-- The non-greedy `(.*?)\);` of `table_pattern` under `re.S`: the body is
everything up to the earliest `);`, newlines included. -/
def splitCloseSemi : LC → Option (LC × LC)
  | ')' :: ';' :: r => some ([], r)
  | c :: r => (splitCloseSemi r).map (fun p => (c :: p.1, p.2))
  | [] => none

/-- Try `table_pattern` anchored at the start of `l`; on success return the
captured table name, body and the text after the match.  Greedy `\w+` followed
by `\s*\(` needs no backtracking because the classes are disjoint. -/
def matchCreateTableAt (l : LC) : Option (LC × LC × LC) :=
  match dropLit (toL "CREATE TABLE") l with
  | none => none
  | some r1 =>
    if (r1.takeWhile isSpaceCh).isEmpty then none else
    let r2 := r1.dropWhile isSpaceCh
    let nm := r2.takeWhile isWordCh
    if nm.isEmpty then none else
    match (r2.dropWhile isWordCh).dropWhile isSpaceCh with
    | '(' :: r3 =>
      match splitCloseSemi r3 with
      | some (body, rest) => some (nm, body, rest)
      | none => none
    | _ => none

/-- `table_pattern.finditer`: scan left to right, on a match continue after the
match, otherwise advance one character.  Fuel bounds the scan by the input
length (each step consumes at least one character). -/
def findCreatesAux : Nat → LC → List (LC × LC)
  | 0, _ => []
  | _, [] => []
  | fuel + 1, c :: t =>
    match matchCreateTableAt (c :: t) with
    | some (nm, body, rest) => (nm, body) :: findCreatesAux fuel rest
    | none => findCreatesAux fuel t

/-- All matches of `table_pattern` in the input: (name, body) pairs. -/
def createTableMatches (l : LC) : List (LC × LC) := findCreatesAux (l.length + 1) l

/-- The `\s*(.*?)(?:,|$)` tail of `column_pattern` under `re.S` (no `re.M`):
the constraints group runs to the first comma (consumed), or to `$`, which in
Python matches at the end of the string or just before a final newline. -/
def takeConstr : LC → (LC × LC)
  | [] => ([], [])
  | [','] => ([], [])
  | ['\n'] => ([], ['\n'])
  | c :: t =>
    if c = ',' then ([], t)
    else
      let p := takeConstr t
      (c :: p.1, p.2)

/-- Try `column_pattern` anchored at the start of `l`: name, data type
(class `[\w()]`, so a parenthesized suffix without a comma stays attached),
constraints, and the remainder after the match. -/
def matchColumnAt (l : LC) : Option (LC × LC × LC × LC) :=
  let nm := l.takeWhile isWordCh
  if nm.isEmpty then none else
  let r1 := l.dropWhile isWordCh
  if (r1.takeWhile isSpaceCh).isEmpty then none else
  let r2 := r1.dropWhile isSpaceCh
  let ty := r2.takeWhile isWordParenCh
  if ty.isEmpty then none else
  let r3 := (r2.dropWhile isWordParenCh).dropWhile isSpaceCh
  let p := takeConstr r3
  some (nm, ty, p.1, p.2)

/-- `column_pattern.finditer` over a table body. -/
def findColumnsAux : Nat → LC → List (LC × LC × LC)
  | 0, _ => []
  | _, [] => []
  | fuel + 1, c :: t =>
    match matchColumnAt (c :: t) with
    | some (nm, ty, cs, rest) => (nm, ty, cs) :: findColumnsAux fuel rest
    | none => findColumnsAux fuel t

/-- All matches of `column_pattern` in a table body. -/
def columnMatches (l : LC) : List (LC × LC × LC) := findColumnsAux (l.length + 1) l

/-- The `(.*?)\)` group of `primary_key_pattern` (no `re.S`, so it cannot
cross a newline): text up to the first `)`. -/
def takeToRParenNoNL : LC → Option (LC × LC)
  | [] => none
  | ')' :: t => some ([], t)
  | '\n' :: _ => none
  | c :: t => (takeToRParenNoNL t).map (fun p => (c :: p.1, p.2))

/-- Try `primary_key_pattern` anchored at the start of `l`. -/
def matchPKAt (l : LC) : Option LC :=
  match dropLit (toL "PRIMARY KEY") l with
  | none => none
  | some r1 =>
    match r1.dropWhile isSpaceCh with
    | '(' :: r2 => (takeToRParenNoNL r2).map (fun p => p.1)
    | _ => none

/-- `primary_key_pattern.search`: first match anywhere in the body. -/
def searchPK : LC → Option LC
  | [] => none
  | c :: t =>
    match matchPKAt (c :: t) with
    | some g => some g
    | none => searchPK t

/-- The `\)\s*REFERENCES\s+(\w+)\s*\((.*?)\)` tail of `foreign_key_pattern`,
applied after a candidate closing parenthesis of the first group. -/
def matchFKTail (l : LC) : Option (LC × LC × LC) :=
  match dropLit (toL "REFERENCES") (l.dropWhile isSpaceCh) with
  | none => none
  | some r1 =>
    if (r1.takeWhile isSpaceCh).isEmpty then none else
    let r2 := r1.dropWhile isSpaceCh
    let rt := r2.takeWhile isWordCh
    if rt.isEmpty then none else
    match (r2.dropWhile isWordCh).dropWhile isSpaceCh with
    | '(' :: r3 =>
      match takeToRParenNoNL r3 with
      | some (rc, rest) => some (rt, rc, rest)
      | none => none
    | _ => none

/-- The non-greedy first group `\((.*?)\)` of `foreign_key_pattern` with regex
backtracking: at each `)` try the tail; if it fails the group grows past that
`)`.  Without `re.S` the group cannot cross a newline. -/
def fkGroup1Aux (acc : LC) : LC → Option (LC × LC × LC × LC)
  | [] => none
  | ')' :: t =>
    match matchFKTail t with
    | some (rt, rc, rest) => some (acc, rt, rc, rest)
    | none => fkGroup1Aux (acc ++ [')']) t
  | '\n' :: _ => none
  | c :: t => fkGroup1Aux (acc ++ [c]) t

/-- Try `foreign_key_pattern` anchored at the start of `l`. -/
def matchFKAt (l : LC) : Option (LC × LC × LC × LC) :=
  match dropLit (toL "FOREIGN KEY") l with
  | none => none
  | some r1 =>
    match r1.dropWhile isSpaceCh with
    | '(' :: r2 => fkGroup1Aux [] r2
    | _ => none

/-- `foreign_key_pattern.finditer` over a table body. -/
def findFKsAux : Nat → LC → List (LC × LC × LC)
  | 0, _ => []
  | _, [] => []
  | fuel + 1, c :: t =>
    match matchFKAt (c :: t) with
    | some (g1, rt, rc, rest) => (g1, rt, rc) :: findFKsAux fuel rest
    | none => findFKsAux fuel t

/-- All matches of `foreign_key_pattern` in a table body. -/
def fkMatches (l : LC) : List (LC × LC × LC) := findFKsAux (l.length + 1) l

/-- A column entry of `DDL_VALIDATOR.py`: the dict
`{'name': ..., 'data_type': ..., 'constraints': ...}`. -/
structure Column1 where
  name : LC
  data_type : LC
  constraints : LC
  deriving DecidableEq

/-- A table entry of `DDL_VALIDATOR.py`: the dict with keys `columns`,
`primary_key` (a single optional string) and `foreign_keys`
(`(fk_column, referenced_table, referenced_column)` triples). -/
structure Table1 where
  columns : List Column1
  primary_key : Option LC
  foreign_keys : List (LC × LC × LC)
  deriving DecidableEq

/-- The schema of `DDL_VALIDATOR.py`: the `tables` dict. -/
abbrev Schema1 := List (LC × Table1)

/-- One iteration of the column loop in `extract_table_definitions`: an inline
`PRIMARY KEY` in the constraints sets `primary_key`; a `FOREIGN KEY` in the
constraints skips the append (`continue`) after that assignment. -/
def columnFold (st : List Column1 × Option LC) (m : LC × LC × LC) :
    List Column1 × Option LC :=
  let pk2 := if containsSub (toL "PRIMARY KEY") m.2.2 then some m.1 else st.2
  if containsSub (toL "FOREIGN KEY") m.2.2 then (st.1, pk2)
  else (st.1 ++ [⟨m.1, m.2.1, m.2.2⟩], pk2)

/-- The per-table part of `extract_table_definitions`: columns and inline
primary key from the column loop, then the table-level `PRIMARY KEY(...)`
search overriding the primary key, then the foreign-key matches. -/
def buildTable (body : LC) : Table1 :=
  let cp := (columnMatches body).foldl columnFold ([], none)
  let pk :=
    match searchPK body with
    | some g => some (pyStrip g)
    | none => cp.2
  let fks := (fkMatches body).map (fun m => (pyStrip m.1, pyStrip m.2.1, pyStrip m.2.2))
  ⟨cp.1, pk, fks⟩

/-- `extract_table_definitions` of `DDL_VALIDATOR.py`. -/
def extract_table_definitions (l : LC) : Schema1 :=
  (createTableMatches l).foldl (fun tbls m => dictInsert tbls m.1 (buildTable m.2)) []

/-!
## DDL_VALIDATOR.py — analyzer (`analyze_tables`)

The report is a list of `(message, severity)` pairs accumulated per table in
dict iteration order; the message strings below are the exact f-strings of the
source.
-/

/-- The severity tag of a finding in `DDL_VALIDATOR.py`. -/
inductive Severity where
  | error
  | warning
  | info
  deriving DecidableEq

/-- A report entry of `analyze_tables`: `(message, severity)`. -/
abbrev Finding := LC × Severity

/-- `f"Table '{table_name}' does not have a primary key defined."` -/
def msgNoPK (n : LC) : LC :=
  toL "Table \x27" ++ n ++ toL "\x27 does not have a primary key defined."

/-- `f"Table '{table_name}' has no foreign key relationships detected, explicit or implicit."` -/
def msgNoFKs (n : LC) : LC :=
  toL "Table \x27" ++ n ++ toL "\x27 has no foreign key relationships detected, explicit or implicit."

/-- `f"Table '{table_name}' has possible foreign key columns: {', '.join(possible_fks)} but no explicit foreign key constraint is defined."` -/
def msgPossibleFKs (n : LC) (cols : List LC) : LC :=
  toL "Table \x27" ++ n ++ toL "\x27 has possible foreign key columns: " ++
  joinSep (toL ", ") cols ++ toL " but no explicit foreign key constraint is defined."

/-- `f"Foreign key column '{fk_column}' in table '{table_name}' references non-existent table '{ref_table}'."` -/
def msgFKTable (c n rt : LC) : LC :=
  toL "Foreign key column \x27" ++ c ++ toL "\x27 in table \x27" ++ n ++
  toL "\x27 references non-existent table \x27" ++ rt ++ toL "\x27."

/-- `f"Foreign key column '{fk_column}' in table '{table_name}' references non-existent column '{ref_column}' in table '{ref_table}'."` -/
def msgFKColumn (c n rc rt : LC) : LC :=
  toL "Foreign key column \x27" ++ c ++ toL "\x27 in table \x27" ++ n ++
  toL "\x27 references non-existent column \x27" ++ rc ++ toL "\x27 in table \x27" ++
  rt ++ toL "\x27."

/-- `f"Key column '{col['name']}' in table '{table_name}' is not indexed."` -/
def msgNotIndexed (c n : LC) : LC :=
  toL "Key column \x27" ++ c ++ toL "\x27 in table \x27" ++ n ++ toL "\x27 is not indexed."

/-- The cardinality-issue warning of `analyze_tables`. -/
def msgCardinality (n : LC) : LC :=
  toL "Table \x27" ++ n ++
  toL "\x27 may have a cardinality issue: it has multiple foreign keys but the primary key is not a composite of these foreign keys. This could be a many-to-many relationship incorrectly modeled as one-to-many."

/-- `f"Table '{table_name}' seems to have a one-to-many relationship with table '{foreign_keys[0][1]}'."` -/
def msgOneToMany (n rt : LC) : LC :=
  toL "Table \x27" ++ n ++ toL "\x27 seems to have a one-to-many relationship with table \x27" ++
  rt ++ toL "\x27."

/-- `f"Table '{table_name}' may have a many-to-many relationship or an incorrect FK setup."` -/
def msgManyToMany (n : LC) : LC :=
  toL "Table \x27" ++ n ++ toL "\x27 may have a many-to-many relationship or an incorrect FK setup."

/-- The per-foreign-key checks of `analyze_tables` (lines 81-85): an error if
the referenced table is not a key of `tables`, else an error if the referenced
column is not among that table's column names; nothing otherwise. -/
def fkCheck (tables : Schema1) (tname : LC) (fk : LC × LC × LC) : List Finding :=
  match dictGet tables fk.2.1 with
  | none => [(msgFKTable fk.1 tname fk.2.1, Severity.error)]
  | some rt =>
    if fk.2.2 ∈ rt.columns.map Column1.name then []
    else [(msgFKColumn fk.1 tname fk.2.2 fk.2.1, Severity.error)]

/-- The index-coverage check of `analyze_tables` (lines 87-90): a key column
(equal to the primary key, or the first component of some foreign key) whose
constraints do not contain `INDEX` (upper-cased) gets a warning. -/
def indexCheck (tname : LC) (pk : Option LC) (fks : List (LC × LC × LC)) (col : Column1) :
    List Finding :=
  if (pk = some col.name ∨ col.name ∈ fks.map (fun fk => fk.1)) ∧
      containsSub (toL "INDEX") (pyUpper col.constraints) = false then
    [(msgNotIndexed col.name tname, Severity.warning)]
  else []

/-- The heuristic column scan of `analyze_tables` line 75: names containing
`id`, `fk` or `ref` case-insensitively. -/
def possibleFKNames (cols : List Column1) : List LC :=
  (cols.filter (fun col =>
    containsSub (toL "id") (pyLower col.name) || containsSub (toL "fk") (pyLower col.name) ||
    containsSub (toL "ref") (pyLower col.name))).map Column1.name

/-- The full report block of `analyze_tables` for one table, in source order:
missing primary key (line 71), foreign-key section (lines 74-85), index
coverage (87-90), cardinality (92-95), relationship detection (97-101). -/
def tableReport (tables : Schema1) (tname : LC) (ti : Table1) : List Finding :=
  (if pyFalsyStrOpt ti.primary_key then [(msgNoPK tname, Severity.error)] else []) ++
  (if ti.foreign_keys = [] then
    (let possible := possibleFKNames ti.columns
     if possible = [] then [(msgNoFKs tname, Severity.warning)]
     else [(msgPossibleFKs tname possible, Severity.warning)])
   else ((ti.foreign_keys.map (fkCheck tables tname)).flatten)) ++
  ((ti.columns.map (indexCheck tname ti.primary_key ti.foreign_keys)).flatten) ++
  (if 1 < ti.foreign_keys.length then
    (match ti.primary_key with
     | none => []
     | some p =>
       if p ∈ ti.foreign_keys.map (fun fk => fk.1) ∨ p = [] then []
       else [(msgCardinality tname, Severity.warning)])
   else []) ++
  (match ti.foreign_keys with
   | [] => []
   | [fk] => [(msgOneToMany tname fk.2.1, Severity.info)]
   | _ :: _ :: _ => [(msgManyToMany tname, Severity.warning)])

/-- `analyze_tables` of `DDL_VALIDATOR.py`: the concatenation of every table's
report block, in the dict's insertion order. -/
def analyze_tables (tables : Schema1) : List Finding :=
  (tables.map (fun e => tableReport tables e.1 e.2)).flatten

/-!
## ddl_validator_v2.py — data model and parser

`Column`, `Table` dataclasses and `SQLSchemaAnalyzer`.  Findings in this file
are plain strings accumulated in `self.errors`; there is no severity.
-/

/-- The `Column` dataclass of `ddl_validator_v2.py`. -/
structure Column2 where
  name : LC
  data_type : LC
  constraints : List LC
  is_primary_key : Bool
  is_foreign_key : Bool
  references_table : Option LC
  references_column : Option LC
  deriving DecidableEq

/-- The `Table` dataclass of `ddl_validator_v2.py`: `columns` is a dict from
column name to `Column`. -/
structure Table2 where
  name : LC
  columns : List (LC × Column2)
  primary_keys : List LC
  deriving DecidableEq

/-- The mutable state of `SQLSchemaAnalyzer`: `self.tables` and `self.errors`. -/
structure AnalyzerState where
  tables : List (LC × Table2)
  errors : List LC

/-- `re.search(r'SELECT (\w+)', ..., re.IGNORECASE)` anchored at the start:
the literal `SELECT` case-insensitively, one space, then a captured word. -/
def matchSelectAt (l : LC) : Option LC :=
  if ciPrefixB (toL "select") l then
    match l.drop 6 with
    | ' ' :: r =>
      let w := r.takeWhile isWordCh
      if w.isEmpty then none else some w
    | _ => none
  else none

/-- The table-name search of `_parse_create_table`:
`re.search(r'SELECT (\w+)', create_statement, re.IGNORECASE)`. -/
def searchSelectName : LC → Option LC
  | [] => none
  | c :: t =>
    match matchSelectAt (c :: t) with
    | some w => some w
    | none => searchSelectName t

/-- `re.findall(r'(\w+)\s+([\w()]+)([^,]+)?', ...)` anchored at the start:
name, data type, and the optional greedy `[^,]+` group (the empty string when
absent, as `findall` reports unmatched groups). -/
def matchColDefAt (l : LC) : Option (LC × LC × LC × LC) :=
  let nm := l.takeWhile isWordCh
  if nm.isEmpty then none else
  let r1 := l.dropWhile isWordCh
  if (r1.takeWhile isSpaceCh).isEmpty then none else
  let r2 := r1.dropWhile isSpaceCh
  let ty := r2.takeWhile isWordParenCh
  if ty.isEmpty then none else
  let r3 := r2.dropWhile isWordParenCh
  let cs := r3.takeWhile (fun c => c ≠ ',')
  some (nm, ty, cs, r3.dropWhile (fun c => c ≠ ','))

/-- The `findall` scan for column definitions. -/
def findColDefsAux : Nat → LC → List (LC × LC × LC)
  | 0, _ => []
  | _, [] => []
  | fuel + 1, c :: t =>
    match matchColDefAt (c :: t) with
    | some (nm, ty, cs, rest) => (nm, ty, cs) :: findColDefsAux fuel rest
    | none => findColDefsAux fuel t

/-- All `(\w+)\s+([\w()]+)([^,]+)?` matches in a statement. -/
def colDefMatches (l : LC) : List (LC × LC × LC) := findColDefsAux (l.length + 1) l

/-- `re.search(r'REFERENCES\s+(\w+)\s*\((\w+)\)', constraints, re.IGNORECASE)`
anchored at the start. -/
def matchRefsAt (l : LC) : Option (LC × LC) :=
  match dropLitCI (toL "references") l with
  | none => none
  | some r1 =>
    if (r1.takeWhile isSpaceCh).isEmpty then none else
    let r2 := r1.dropWhile isSpaceCh
    let rt := r2.takeWhile isWordCh
    if rt.isEmpty then none else
    match (r2.dropWhile isWordCh).dropWhile isSpaceCh with
    | '(' :: r3 =>
      let rc := r3.takeWhile isWordCh
      if rc.isEmpty then none else
      match r3.dropWhile isWordCh with
      | ')' :: _ => some (rt, rc)
      | _ => none
    | _ => none

/-- The `REFERENCES` search of `_parse_create_table`. -/
def searchRefs : LC → Option (LC × LC)
  | [] => none
  | c :: t =>
    match matchRefsAt (c :: t) with
    | some p => some p
    | none => searchRefs t

/-- `re.search(r'PRIMARY KEY\s*\(([^)]+)\)', create_statement, re.IGNORECASE)`
anchored at the start: the group is the greedy non-`)` run, at least one
character, followed by `)`. -/
def matchPKClauseAt (l : LC) : Option LC :=
  match dropLitCI (toL "primary key") l with
  | none => none
  | some r1 =>
    match r1.dropWhile isSpaceCh with
    | '(' :: r2 =>
      let g := r2.takeWhile (fun c => c ≠ ')')
      if g.isEmpty then none else
      match r2.dropWhile (fun c => c ≠ ')') with
      | ')' :: _ => some g
      | _ => none
    | _ => none

/-- The table-level `PRIMARY KEY` clause search of `_parse_create_table`. -/
def searchPKClause : LC → Option LC
  | [] => none
  | c :: t =>
    match matchPKClauseAt (c :: t) with
    | some g => some g
    | none => searchPKClause t

/-- `_parse_constraints`: `constraints.split()` (whitespace split; the strips
are no-ops on whitespace-split pieces). -/
def parse_constraints (cs : LC) : List LC := splitWS cs

/-- One iteration of the column-definition loop of `_parse_create_table`:
lower-case the name, split the constraints, detect inline markers by substring
search over the individual whitespace-split tokens, search `REFERENCES` in the
raw constraints when the foreign-key marker was detected, store the column in
the dict and append to `primary_keys` when the primary-key marker was
detected. -/
def colDefFold (acc : List (LC × Column2) × List LC) (m : LC × LC × LC) :
    List (LC × Column2) × List LC :=
  let cn := pyLower m.1
  let clist := parse_constraints m.2.2
  let ipk := clist.any (fun c => containsSub (toL "PRIMARY KEY") (pyUpper c))
  let ifk := clist.any (fun c => containsSub (toL "FOREIGN KEY") (pyUpper c))
  let refs := if ifk then (searchRefs m.2.2).map (fun p => (pyLower p.1, pyLower p.2)) else none
  let col : Column2 := ⟨cn, m.2.1, clist, ipk, ifk, refs.map Prod.fst, refs.map Prod.snd⟩
  (dictInsert acc.1 cn col, if ipk then acc.2 ++ [cn] else acc.2)

/-- `_parse_create_table` of `ddl_validator_v2.py`: the table name comes from
the (mis-written) `SELECT (\w+)` search — when it fails the method returns
without touching `self.tables`; otherwise columns and inline primary keys are
collected, the table-level `PRIMARY KEY(...)` clause extends `primary_keys`
(split on commas, stripped, lower-cased, no de-duplication), and the table is
stored. -/
def parse_create_table (stmt : LC) (tables : List (LC × Table2)) : List (LC × Table2) :=
  match searchSelectName stmt with
  | none => tables
  | some raw =>
    let tname := pyLower raw
    let cp := (colDefMatches stmt).foldl colDefFold ([], [])
    let pks :=
      match searchPKClause stmt with
      | some g => cp.2 ++ (splitComma g).map (fun c => pyLower (pyStrip c))
      | none => cp.2
    dictInsert tables tname ⟨tname, cp.1, pks⟩

/-- Modelled from the spec: `parse_schema` delegates statement splitting to the
external `sqlparse` library (`sqlparse.split`), which is not part of this
repository; it is modelled as splitting the input on semicolons (each piece
stripped, keeping its trailing semicolon, empty pieces dropped). -/
def splitStatementsAux (acc : LC) : LC → List LC
  | [] => if (pyStrip acc).isEmpty then [] else [pyStrip acc]
  | c :: t =>
    if c = ';' then pyStrip (acc ++ [';']) :: splitStatementsAux [] t
    else splitStatementsAux (acc ++ [c]) t

/-- Modelled from the spec: `sqlparse.split`. -/
def splitStatements (l : LC) : List LC := splitStatementsAux [] l

/-- Modelled from the spec: `sqlparse.parse(statement)[0].get_type() ==
'CREATE'` — the external `sqlparse` library classifies a statement by its
first keyword; modelled as the first whitespace-separated word upper-casing to
`CREATE`. -/
def isCreateStmt (st : LC) : Bool :=
  match splitWS st with
  | [] => false
  | w :: _ => pyUpper w = toL "CREATE"

/-- `parse_schema` of `ddl_validator_v2.py`: feed every statement of type
`CREATE` to `_parse_create_table`, starting from the given `self.tables`. -/
def parse_schema (sql : LC) (tables : List (LC × Table2)) : List (LC × Table2) :=
  (splitStatements sql).foldl
    (fun tbls st => if isCreateStmt st then parse_create_table st tbls else tbls) tables

/-!
## ddl_validator_v2.py — analyzer (`analyze` and the three checks)
-/

/-- `f"Table '{table.name}' has no PRIMARY KEY defined"` -/
def msg2NoPK (n : LC) : LC :=
  toL "Table \x27" ++ n ++ toL "\x27 has no PRIMARY KEY defined"

/-- `f"Foreign key '{col_name}' in table '{table.name}' does not properly specify referenced table and column"` -/
def msg2FKIncomplete (c n : LC) : LC :=
  toL "Foreign key \x27" ++ c ++ toL "\x27 in table \x27" ++ n ++
  toL "\x27 does not properly specify referenced table and column"

/-- `f"Foreign key '{col_name}' in table '{table.name}' references non-existent table '{column.references_table}'"` -/
def msg2FKTable (c n rt : LC) : LC :=
  toL "Foreign key \x27" ++ c ++ toL "\x27 in table \x27" ++ n ++
  toL "\x27 references non-existent table \x27" ++ rt ++ toL "\x27"

/-- `f"Foreign key '{col_name}' in table '{table.name}' references non-existent column '{column.references_column}' in table '{column.references_table}'"` -/
def msg2FKColumn (c n rc rt : LC) : LC :=
  toL "Foreign key \x27" ++ c ++ toL "\x27 in table \x27" ++ n ++
  toL "\x27 references non-existent column \x27" ++ rc ++ toL "\x27 in table \x27" ++
  rt ++ toL "\x27"

/-- `f"Foreign key '{col_name}' in table '{table.name}' references non-primary key column '{column.references_column}' in table '{column.references_table}'"` -/
def msg2FKNonPK (c n rc rt : LC) : LC :=
  toL "Foreign key \x27" ++ c ++ toL "\x27 in table \x27" ++ n ++
  toL "\x27 references non-primary key column \x27" ++ rc ++ toL "\x27 in table \x27" ++
  rt ++ toL "\x27"

/-- Python's rendering of an optional string inside an f-string: `None` prints
as the text `None`. -/
def optDisplay : Option LC → LC
  | none => toL "None"
  | some s => s

/-- `f"Inconsistent foreign key naming: '{col_name}' in table '{table.name}' should be named '{referenced_table}_id'"` -/
def msg2Naming (c n : LC) (rt : Option LC) : LC :=
  toL "Inconsistent foreign key naming: \x27" ++ c ++ toL "\x27 in table \x27" ++ n ++
  toL "\x27 should be named \x27" ++ optDisplay rt ++ toL "_id\x27"

/-- `_check_primary_key`. -/
def check_primary_key (t : Table2) : List LC :=
  if t.primary_keys = [] then [msg2NoPK t.name] else []

/-- `_check_foreign_keys`: for every foreign-key column, first the
completeness check (Python truthiness: `None` or empty), then existence of the
referenced table, then existence of the referenced column in it, then
membership of the referenced column in its `primary_keys`. -/
def check_foreign_keys (tables : List (LC × Table2)) (t : Table2) : List LC :=
  (t.columns.map (fun e =>
    if e.2.is_foreign_key then
      if pyFalsyStrOpt e.2.references_table || pyFalsyStrOpt e.2.references_column then
        [msg2FKIncomplete e.1 t.name]
      else
        match e.2.references_table, e.2.references_column with
        | some rt, some rc =>
          (match dictGet tables rt with
           | none => [msg2FKTable e.1 t.name rt]
           | some rtbl =>
             if (dictGet rtbl.columns rc).isSome then
               (if rc ∈ rtbl.primary_keys then [] else [msg2FKNonPK e.1 t.name rc rt])
             else [msg2FKColumn e.1 t.name rc rt])
        | _, _ => []
    else [])).flatten

/-- `_check_naming_consistency`. -/
def check_naming_consistency (t : Table2) : List LC :=
  (t.columns.map (fun e =>
    if e.2.is_foreign_key && !(endsWithB (toL "_id") e.1) then
      [msg2Naming e.1 t.name e.2.references_table]
    else [])).flatten

/-- The findings produced by `analyze` for a given `self.tables`: per table in
insertion order, primary-key check, foreign-key checks, naming checks. -/
def v2_errors (tables : List (LC × Table2)) : List LC :=
  (tables.map (fun e =>
    check_primary_key e.2 ++ check_foreign_keys tables e.2 ++
    check_naming_consistency e.2)).flatten

/-- `SQLSchemaAnalyzer.analyze`: resets `self.errors` to empty, runs the three
checks per table, and returns the accumulated list; the resulting object state
is the same tables with the new errors. -/
def analyze (st : AnalyzerState) : AnalyzerState × List LC :=
  (⟨st.tables, v2_errors st.tables⟩, v2_errors st.tables)

/-- `analyze_sql_schema`: a fresh analyzer (empty tables and errors), then
`parse_schema`, then `analyze`. -/
def analyze_sql_schema (sql : LC) : List LC :=
  (analyze ⟨parse_schema sql [], []⟩).2

/-!
## Auxiliary predicates and lemmas
-/

/-- A string already in canonical (lower) case: a fixpoint of `pyLower`. -/
def lowerStrB (l : LC) : Bool := pyLower l == l

/-- An optional string that is absent or already lower case. -/
def lowerOptB : Option LC → Bool
  | none => true
  | some s => lowerStrB s

/-- A column entry of a v2 table whose key and reference names are lower case. -/
def colLowerB (e : LC × Column2) : Bool :=
  lowerStrB e.1 && lowerOptB e.2.references_table && lowerOptB e.2.references_column

/-- A v2 table entry whose key, column keys, reference names and primary-key
names are all lower case. -/
def tableLowerB (e : LC × Table2) : Bool :=
  lowerStrB e.1 && e.2.columns.all colLowerB && e.2.primary_keys.all lowerStrB

/-- Every name recorded in a v2 `tables` dict is lower case. -/
def lowerTablesB (tbls : List (LC × Table2)) : Bool := tbls.all tableLowerB

theorem asciiLower_cases (c : Char) :
    asciiLower c = c ∨ asciiLower c ∈ toL "abcdefghijklmnopqrstuvwxyz" := by
  unfold asciiLower
  split <;> first | (left; rfl) | (right; decide)

theorem asciiLower_idem (c : Char) : asciiLower (asciiLower c) = asciiLower c := by
  have hlow : ∀ d ∈ toL "abcdefghijklmnopqrstuvwxyz", asciiLower d = d := by decide
  rcases asciiLower_cases c with h | h
  · rw [h]; exact h
  · exact hlow _ h

theorem pyLower_idem (l : LC) : pyLower (pyLower l) = pyLower l := by
  simp [pyLower, List.map_map, Function.comp, asciiLower_idem]

theorem lowerStrB_pyLower (l : LC) : lowerStrB (pyLower l) = true := by
  simp [lowerStrB, pyLower_idem]

theorem all_dictInsert {α : Type} (p : LC × α → Bool) (l : List (LC × α)) (k : LC) (v : α)
    (hl : l.all p = true) (hkv : p (k, v) = true) : (dictInsert l k v).all p = true := by
  induction l with
  | nil => simp [dictInsert, hkv]
  | cons e t ih =>
    obtain ⟨k', v'⟩ := e
    simp only [List.all_cons, Bool.and_eq_true] at hl
    by_cases hk : k' = k
    · simp [dictInsert, hk, hkv, hl.2]
    · simp only [dictInsert, if_neg hk, List.all_cons, Bool.and_eq_true]
      exact ⟨hl.1, ih hl.2⟩

theorem colDefFold_lower (defs : List (LC × LC × LC)) :
    ∀ acc : List (LC × Column2) × List LC,
      acc.1.all colLowerB = true → acc.2.all lowerStrB = true →
      ((defs.foldl colDefFold acc).1.all colLowerB = true ∧
       (defs.foldl colDefFold acc).2.all lowerStrB = true) := by
  induction defs with
  | nil => intro acc h1 h2; exact ⟨h1, h2⟩
  | cons m rest ih =>
    intro acc h1 h2
    simp only [List.foldl_cons]
    refine ih _ ?_ ?_
    · refine all_dictInsert _ _ _ _ h1 ?_
      simp only [colDefFold, colLowerB]
      cases hifk : (parse_constraints m.2.2).any
          (fun c => containsSub (toL "FOREIGN KEY") (pyUpper c)) <;>
        rcases hsr : searchRefs m.2.2 with _ | ⟨a, b⟩ <;>
        simp [hifk, hsr, lowerOptB, lowerStrB_pyLower]
    · simp only [colDefFold]
      cases hipk : (parse_constraints m.2.2).any
          (fun c => containsSub (toL "PRIMARY KEY") (pyUpper c))
      · simp [h2]
      · simp only [if_true, List.all_append, Bool.and_eq_true]
        exact ⟨h2, by simp [lowerStrB_pyLower]⟩

theorem parse_create_table_lower (st : LC) (tbls : List (LC × Table2))
    (h : lowerTablesB tbls = true) : lowerTablesB (parse_create_table st tbls) = true := by
  unfold parse_create_table
  rcases hs : searchSelectName st with _ | raw
  · exact h
  · have hcols := colDefFold_lower (colDefMatches st) ([], []) rfl rfl
    refine all_dictInsert _ _ _ _ h ?_
    simp only [tableLowerB, Bool.and_eq_true]
    refine ⟨⟨lowerStrB_pyLower _, hcols.1⟩, ?_⟩
    rcases hg : searchPKClause st with _ | g
    · exact hcols.2
    · simp only [List.all_append, Bool.and_eq_true]
      refine ⟨hcols.2, ?_⟩
      refine List.all_eq_true.mpr ?_
      intro x hx
      simp only [List.mem_map] at hx
      obtain ⟨y, _, rfl⟩ := hx
      exact lowerStrB_pyLower _

theorem mem_analyze_tables {tables : Schema1} {tn : LC} {ti : Table1} (h : (tn, ti) ∈ tables)
    {f : Finding} (hf : f ∈ tableReport tables tn ti) : f ∈ analyze_tables tables := by
  simp only [analyze_tables, List.mem_flatten, List.mem_map]
  exact ⟨tableReport tables tn ti, ⟨(tn, ti), h, rfl⟩, hf⟩

theorem mem_fk_block {tables : Schema1} {tn : LC} {ti : Table1} {fk : LC × LC × LC}
    (hfk : fk ∈ ti.foreign_keys) {f : Finding} (hf : f ∈ fkCheck tables tn fk) :
    f ∈ tableReport tables tn ti := by
  have hne : ti.foreign_keys ≠ [] := List.ne_nil_of_mem hfk
  unfold tableReport
  simp only [List.mem_append]
  refine Or.inl (Or.inl (Or.inl (Or.inr ?_)))
  rw [if_neg hne]
  simp only [List.mem_flatten, List.mem_map]
  exact ⟨fkCheck tables tn fk, ⟨fk, hfk, rfl⟩, hf⟩

theorem searchSelectName_eq_none {st : LC} (h : containsCI (toL "select") st = false) :
    searchSelectName st = none := by
  induction st with
  | nil => rfl
  | cons c t ih =>
    simp only [containsCI, Bool.or_eq_false_iff] at h
    simp only [searchSelectName, matchSelectAt, h.1]
    simp only [Bool.false_eq_true, if_false]
    exact ih h.2

theorem parse_create_table_skip {st : LC} (tbls : List (LC × Table2))
    (h : searchSelectName st = none) : parse_create_table st tbls = tbls := by
  unfold parse_create_table
  rw [h]

/-!
## Concrete inputs and schemas used by the claims
-/

set_option maxRecDepth 20000

/-- An input with comments, a blank line and non-`CREATE TABLE` DDL only. -/
def c1Malformed : LC := toL "-- a comment\n\nINSERT INTO t VALUES (1);\nALTER TABLE x ADD COLUMN c INT;"

/-- An ordinary `CREATE TABLE` statement (contains no `SELECT`). -/
def c1Create : LC := toL "CREATE TABLE users (user_id INT NOT NULL);"

/-- The canonical de-duplication scenario for `DDL_VALIDATOR.py`: an inline
`PRIMARY KEY` marker on `user_id` and a trailing `PRIMARY KEY (user_id)` clause. -/
def c3DdlV1 : LC := toL "CREATE TABLE users (user_id INT PRIMARY KEY, name VARCHAR(50), PRIMARY KEY (user_id));"

/-- The same scenario for `ddl_validator_v2.py`; the extra `SELECT` token is
needed because `_parse_create_table` finds the table name with `SELECT (\w+)`. -/
def c3DdlV2 : LC := toL "CREATE TABLE SELECT users (user_id INT PRIMARY KEY, PRIMARY KEY (user_id));"

/-- A column whose type carries a comma inside the parentheses. -/
def c4DdlDecimal : LC := toL "CREATE TABLE items (price DECIMAL(10,2) NOT NULL);"

/-- A column whose type carries a comma-free parenthesized suffix. -/
def c4DdlVarchar : LC := toL "CREATE TABLE users (user_id INT PRIMARY KEY, username VARCHAR(50) NOT NULL);"

/-- A referenced table whose column `name` exists but is not its primary key. -/
def c2Users : Table1 :=
  ⟨[⟨toL "id", toL "INT", toL "PRIMARY KEY"⟩, ⟨toL "name", toL "VARCHAR(50)", toL ""⟩],
   some (toL "id"), []⟩

/-- A table whose foreign key targets `users.name` (existing, not primary key). -/
def c2Orders : Table1 :=
  ⟨[⟨toL "order_id", toL "INT", toL "PRIMARY KEY"⟩, ⟨toL "user_ref", toL "INT", toL ""⟩],
   some (toL "order_id"), [(toL "user_ref", toL "users", toL "name")]⟩

/-- The schema for the C2 counterexample. -/
def c2Schema : Schema1 := [(toL "users", c2Users), (toL "orders", c2Orders)]

/-- C2 witness: a table with one dangling foreign key and one foreign key to an
existing table that lacks the referenced column. -/
def c2WT : Table1 :=
  ⟨[], some (toL "x"), [(toL "c", toL "missing", toL "z"), (toL "d", toL "emp", toL "zz")]⟩

/-- C2 witness: an existing referenced table with no columns. -/
def c2WEmp : Table1 := ⟨[], some (toL "e"), []⟩

/-- C2 witness schema for the v1 error checks. -/
def c2WSchema : Schema1 := [(toL "emp", c2WEmp), (toL "w", c2WT)]

/-- C2 witness (v2): a referenced column that exists but is not a primary key. -/
def c2WUCol : Column2 := ⟨toL "uid", toL "INT", [], false, false, none, none⟩

/-- C2 witness (v2): the referenced table; `uid` exists, primary key is `other`. -/
def c2WU : Table2 := ⟨toL "users", [(toL "uid", c2WUCol)], [toL "other"]⟩

/-- C2 witness (v2): a foreign-key column referencing `users.uid`. -/
def c2WFCol : Column2 := ⟨toL "user_ref", toL "INT", [], false, true, some (toL "users"), some (toL "uid")⟩

/-- C2 witness (v2): the referencing table. -/
def c2WO : Table2 := ⟨toL "orders", [(toL "user_ref", c2WFCol)], [toL "oid"]⟩

/-- C2 witness (v2): analyzer state holding both tables. -/
def c2WState : AnalyzerState := ⟨[(toL "users", c2WU), (toL "orders", c2WO)], []⟩

/-- A table with two foreign keys `a_id`, `b_id` whose primary key `a_id` is a
member of the foreign-key columns but not equal to their set. -/
def c5Table : Table1 :=
  ⟨[], some (toL "a_id"), [(toL "a_id", toL "x", toL "xc"), (toL "b_id", toL "y", toL "yc")]⟩

/-- The schema for the C5 counterexample. -/
def c5Schema : Schema1 := [(toL "t", c5Table)]

/-- C5 witness: a table with exactly one foreign key. -/
def c5WT1 : Table1 := ⟨[], some (toL "p1"), [(toL "f1", toL "r1", toL "c1")]⟩

/-- C5 witness: a table with two foreign keys and primary key `id`. -/
def c5WT2 : Table1 :=
  ⟨[], some (toL "id"), [(toL "a_id", toL "ra", toL "ca"), (toL "b_id", toL "rb", toL "cb")]⟩

/-- C5 witness schema. -/
def c5WSchema : Schema1 := [(toL "t1", c5WT1), (toL "t2", c5WT2)]

/-- C6 witness: a state with one table and empty accumulated errors. -/
def c6WState1 : AnalyzerState := ⟨[(toL "t", ⟨toL "t", [], []⟩)], []⟩

/-- C6 witness: the same tables with different accumulated errors. -/
def c6WState2 : AnalyzerState := ⟨[(toL "t", ⟨toL "t", [], []⟩)], [toL "junk"]⟩

/-- Two tables whose names differ only in case between the declaration
(`Users`) and the foreign-key reference (`USERS`). -/
def c7Ddl : LC := toL "CREATE TABLE Users (user_id INT PRIMARY KEY);\nCREATE TABLE orders (order_id INT PRIMARY KEY, user_id INT, FOREIGN KEY (user_id) REFERENCES USERS (user_id));"

/-- A foreign-key column named `user` (no `_id` suffix) with a valid target. -/
def c8OrdersT : Table1 :=
  ⟨[⟨toL "order_id", toL "INT", toL "PRIMARY KEY"⟩, ⟨toL "user", toL "INT", toL ""⟩],
   some (toL "order_id"), [(toL "user", toL "users", toL "user_id")]⟩

/-- The referenced table for the C8 counterexample. -/
def c8UsersT : Table1 :=
  ⟨[⟨toL "user_id", toL "INT", toL "PRIMARY KEY"⟩], some (toL "user_id"), []⟩

/-- The schema for the C8 counterexample. -/
def c8Schema : Schema1 := [(toL "users", c8UsersT), (toL "orders", c8OrdersT)]

/-- C8 witness (v2): a foreign-key column named `user`. -/
def c8WCol : Column2 := ⟨toL "user", toL "INT", [], false, true, some (toL "users"), some (toL "user_id")⟩

/-- C8 witness (v2): its table. -/
def c8WT : Table2 := ⟨toL "orders", [(toL "user", c8WCol)], [toL "oid"]⟩

/-- C8 witness (v2): the analyzer state. -/
def c8WState : AnalyzerState := ⟨[(toL "orders", c8WT)], []⟩

/-- C10 witness input: an ordinary `CREATE TABLE` script with no `SELECT`. -/
def c10WSql : LC := toL "CREATE TABLE users (user_id INT NOT NULL, PRIMARY KEY (user_id));"

/-!
## The claims
-/

/-- C1.  Both parsers are total functions into a schema (no exception path
exists in the embedding, whose result types are plain schemas), and statements
that do not match the expected shape are skipped: an input with no
`CREATE TABLE <name> ( <body> );` match produces the empty schema in
`extract_table_definitions`, and a statement in which `_parse_create_table`'s
table-name search fails leaves `self.tables` untouched in v2. -/
theorem c1_parser_total_skips_unmatched (l st : LC) (tbls : List (LC × Table2)) :
    (createTableMatches l = [] → extract_table_definitions l = []) ∧
    (searchSelectName st = none → parse_create_table st tbls = tbls) := by
  constructor
  · intro h
    unfold extract_table_definitions
    rw [h]
    rfl
  · intro h
    unfold parse_create_table
    rw [h]

/-- C1, witness: a comment, a blank line, an `INSERT` and an `ALTER` statement
are all skipped, and a `CREATE TABLE` statement without `SELECT` is skipped by
the v2 parser. -/
theorem c1_witness :
    extract_table_definitions c1Malformed = [] ∧ parse_create_table c1Create [] = [] :=
  ⟨(c1_parser_total_skips_unmatched c1Malformed c1Create []).1 (by decide),
   (c1_parser_total_skips_unmatched c1Malformed c1Create []).2 (by decide)⟩

/-- C2, counterexample: in `analyze_tables` of `DDL_VALIDATOR.py` a foreign key
whose referenced column exists in the referenced table but is not its primary
key produces no warning at all — the report contains no finding mentioning
`non-primary`, refuting the claimed warning. -/
theorem c2_counterexample :
    dictGet c2Schema (toL "users") = some c2Users ∧
    toL "name" ∈ c2Users.columns.map Column1.name ∧
    c2Users.primary_key = some (toL "id") ∧
    toL "name" ≠ toL "id" ∧
    (toL "user_ref", toL "users", toL "name") ∈ c2Orders.foreign_keys ∧
    (toL "orders", c2Orders) ∈ c2Schema ∧
    (analyze_tables c2Schema).all
      (fun f => !((f.2 == Severity.warning) && containsSub (toL "non-primary") f.1)) = true := by
  decide

/-- C2, amended: `DDL_VALIDATOR.py` emits an error when the referenced table
does not exist and an error when it exists but the referenced column does not;
it has no check on the referenced column being a primary key.  In
`ddl_validator_v2.py`, `_check_foreign_keys` additionally emits the
`references non-primary key column` finding when the referenced column exists
but is not among the referenced table's primary keys — but v2 findings are
plain strings in one list, with no severity. -/
theorem c2_fk_checks_amended :
    (∀ (tables : Schema1) (tn : LC) (ti : Table1) (fk : LC × LC × LC),
      (tn, ti) ∈ tables → fk ∈ ti.foreign_keys →
      (dictGet tables fk.2.1 = none →
        (msgFKTable fk.1 tn fk.2.1, Severity.error) ∈ analyze_tables tables) ∧
      (∀ rt : Table1, dictGet tables fk.2.1 = some rt →
        fk.2.2 ∉ rt.columns.map Column1.name →
        (msgFKColumn fk.1 tn fk.2.2 fk.2.1, Severity.error) ∈ analyze_tables tables)) ∧
    (∀ (st : AnalyzerState) (tn cn : LC) (tbl : Table2) (col : Column2) (rt rc : LC)
      (rtbl : Table2),
      (tn, tbl) ∈ st.tables → (cn, col) ∈ tbl.columns → col.is_foreign_key = true →
      col.references_table = some rt → col.references_column = some rc →
      rt ≠ [] → rc ≠ [] → dictGet st.tables rt = some rtbl →
      (dictGet rtbl.columns rc).isSome = true → rc ∉ rtbl.primary_keys →
      msg2FKNonPK cn tbl.name rc rt ∈ (analyze st).2) := by
  constructor
  · intro tables tn ti fk hmem hfk
    constructor
    · intro hnone
      refine mem_analyze_tables hmem (mem_fk_block hfk ?_)
      unfold fkCheck
      rw [hnone]
      simp
    · intro rt hsome hnotcol
      refine mem_analyze_tables hmem (mem_fk_block hfk ?_)
      unfold fkCheck
      rw [hsome]
      simp [hnotcol]
  · intro st tn cn tbl col rt rc rtbl hmem hcol hfk hrt hrc hrtne hrcne hlook hcolex hnotpk
    show msg2FKNonPK cn tbl.name rc rt ∈ v2_errors st.tables
    simp only [v2_errors, List.mem_flatten, List.mem_map]
    refine ⟨_, ⟨(tn, tbl), hmem, rfl⟩, ?_⟩
    simp only [List.mem_append]
    refine Or.inl (Or.inr ?_)
    unfold check_foreign_keys
    simp only [List.mem_flatten, List.mem_map]
    refine ⟨_, ⟨(cn, col), hcol, rfl⟩, ?_⟩
    rw [hfk]
    simp only [if_true]
    rw [hrt, hrc]
    have hfalsy : (pyFalsyStrOpt (some rt) || pyFalsyStrOpt (some rc)) = false := by
      simp [pyFalsyStrOpt, List.isEmpty_iff, hrtne, hrcne]
    rw [hfalsy]
    simp only [Bool.false_eq_true, if_false]
    rw [hlook]
    simp only [hcolex, if_true]
    rw [if_neg hnotpk]
    simp

/-- C2, witness for the amended claim: the three findings fire on concrete
schemas. -/
theorem c2_witness :
    (msgFKTable (toL "c") (toL "w") (toL "missing"), Severity.error) ∈ analyze_tables c2WSchema ∧
    (msgFKColumn (toL "d") (toL "w") (toL "zz") (toL "emp"), Severity.error) ∈ analyze_tables c2WSchema ∧
    msg2FKNonPK (toL "user_ref") c2WO.name (toL "uid") (toL "users") ∈ (analyze c2WState).2 :=
  ⟨(c2_fk_checks_amended.1 c2WSchema (toL "w") c2WT (toL "c", toL "missing", toL "z")
      (by decide) (by decide)).1 (by decide),
   (c2_fk_checks_amended.1 c2WSchema (toL "w") c2WT (toL "d", toL "emp", toL "zz")
      (by decide) (by decide)).2 c2WEmp (by decide) (by decide),
   c2_fk_checks_amended.2 c2WState (toL "orders") (toL "user_ref") c2WO c2WFCol
      (toL "users") (toL "uid") c2WU (by decide) (by decide) rfl rfl rfl
      (by decide) (by decide) (by decide) (by decide) (by decide)⟩

/-- C3, counterexample: in `ddl_validator_v2.py`, a parsed statement whose body
carries both an inline `PRIMARY KEY` marker on `user_id` and a trailing
`PRIMARY KEY (user_id)` clause yields `primary_keys = ["user_id"]`, but
`user_id` is not among the recorded columns (the column definitions are
misparsed), refuting the invariant that every name in `primary_keys` exists in
the table's columns mapping. -/
theorem c3_counterexample :
    (dictGet (parse_schema c3DdlV2 []) (toL "users")).map Table2.primary_keys =
      some [toL "user_id"] ∧
    (dictGet (parse_schema c3DdlV2 []) (toL "users")).map
      (fun t => t.columns.map Prod.fst) = some [toL "create", toL "primary"] ∧
    (dictGet (parse_schema c3DdlV2 []) (toL "users")).map
      (fun t => t.columns.any (fun e => e.1 == toL "user_id")) = some false := by
  decide

/-- C3, amended: in `DDL_VALIDATOR.py` the scenario resolves to the single
primary key `user_id` (list form `["user_id"]`, no duplicate), and every name
in that list names a parsed column; in `ddl_validator_v2.py` inline markers
are never detected and the invariant relating `primary_keys` to `columns` can
fail. -/
theorem c3_pk_dedup_amended :
    (dictGet (extract_table_definitions c3DdlV1) (toL "users")).map
      (fun t => t.primary_key.toList) = some [toL "user_id"] ∧
    (dictGet (extract_table_definitions c3DdlV1) (toL "users")).map
      (fun t => t.primary_key.toList.all
        (fun p => t.columns.any (fun c => c.name == p))) = some true := by
  decide

/-- C4, counterexample: `DDL_VALIDATOR.py` parses `price DECIMAL(10,2)` with
`data_type = "DECIMAL(10"` — the comma inside the parentheses acts as a field
separator and the remainder is misparsed as a further column `NOT NULL` —
refuting both halves of the claim at this input. -/
theorem c4_counterexample :
    extract_table_definitions c4DdlDecimal =
      [(toL "items",
        ⟨[⟨toL "price", toL "DECIMAL(10", toL ""⟩, ⟨toL "NOT", toL "NULL", toL ""⟩],
         none, []⟩)] ∧
    toL "DECIMAL(10" ≠ toL "DECIMAL(10,2)" := by
  decide

/-- C4, amended: a parenthesized suffix with no internal comma is kept
attached as one type token (`VARCHAR(50)` parses with
`data_type = "VARCHAR(50)"`), but a comma inside the parentheses is treated as
a field separator (`DECIMAL(10,2)` is truncated to `DECIMAL(10` and the tail
misparsed). -/
theorem c4_type_suffix_amended :
    (dictGet (extract_table_definitions c4DdlVarchar) (toL "users")).map
      (fun t => t.columns.map (fun c => (c.name, c.data_type))) =
      some [(toL "user_id", toL "INT"), (toL "username", toL "VARCHAR(50)")] ∧
    (dictGet (extract_table_definitions c4DdlDecimal) (toL "items")).map
      (fun t => t.columns.map (fun c => (c.name, c.data_type))) =
      some [(toL "price", toL "DECIMAL(10"), (toL "NOT", toL "NULL")] := by
  decide

/-- C5, counterexample: a table with two foreign keys `a_id`, `b_id` and
primary key `a_id` — whose primary key is not exactly the set of the
foreign-key columns — produces no cardinality finding from `analyze_tables`,
because the code only tests membership of the primary key in the foreign-key
columns. -/
theorem c5_counterexample :
    2 ≤ c5Table.foreign_keys.length ∧
    c5Table.primary_key = some (toL "a_id") ∧
    c5Table.foreign_keys.map (fun fk => fk.1) ≠ [toL "a_id"] ∧
    toL "b_id" ∈ c5Table.foreign_keys.map (fun fk => fk.1) ∧
    toL "b_id" ≠ toL "a_id" ∧
    (toL "t", c5Table) ∈ c5Schema ∧
    (analyze_tables c5Schema).all
      (fun f => !(containsSub (toL "cardinality") f.1)) = true := by
  decide

/-- C5, amended: a table with exactly one foreign key gets the one-to-many
info finding; a table with more than one foreign key gets the many-to-many
warning; and the cardinality warning additionally fires exactly when the table
has more than one foreign key and a non-empty primary key that is **not a
member** of the foreign-key columns (a membership test, not equality with
their set) — both warnings can fire for the same table. -/
theorem c5_relationship_rules_amended (tables : Schema1) (tn : LC) (ti : Table1)
    (hmem : (tn, ti) ∈ tables) :
    (∀ fk : LC × LC × LC, ti.foreign_keys = [fk] →
      (msgOneToMany tn fk.2.1, Severity.info) ∈ analyze_tables tables) ∧
    (2 ≤ ti.foreign_keys.length →
      (msgManyToMany tn, Severity.warning) ∈ analyze_tables tables) ∧
    (∀ p : LC, 2 ≤ ti.foreign_keys.length → ti.primary_key = some p →
      p ∉ ti.foreign_keys.map (fun fk => fk.1) → p ≠ [] →
      (msgCardinality tn, Severity.warning) ∈ analyze_tables tables) := by
  refine ⟨?_, ?_, ?_⟩
  · intro fk hone
    refine mem_analyze_tables hmem ?_
    unfold tableReport
    simp only [List.mem_append]
    refine Or.inr ?_
    rw [hone]
    simp
  · intro hlen
    refine mem_analyze_tables hmem ?_
    unfold tableReport
    simp only [List.mem_append]
    refine Or.inr ?_
    match hk : ti.foreign_keys with
    | [] => rw [hk] at hlen; simp at hlen
    | [fk] => rw [hk] at hlen; simp at hlen
    | fk1 :: fk2 :: rest => simp
  · intro p hlen hpk hnot hne
    refine mem_analyze_tables hmem ?_
    unfold tableReport
    simp only [List.mem_append]
    refine Or.inl (Or.inr ?_)
    have hlt : 1 < ti.foreign_keys.length := hlen
    rw [if_pos hlt, hpk]
    have hcond : ¬(p ∈ ti.foreign_keys.map (fun fk => fk.1) ∨ p = []) := by
      intro h
      rcases h with h | h
      · exact hnot h
      · exact hne h
    simp only [hcond, if_false]
    simp

/-- C5, witness for the amended claim: all three findings fire on a concrete
schema with a one-foreign-key table and a two-foreign-key table. -/
theorem c5_witness :
    (msgOneToMany (toL "t1") (toL "r1"), Severity.info) ∈ analyze_tables c5WSchema ∧
    (msgManyToMany (toL "t2"), Severity.warning) ∈ analyze_tables c5WSchema ∧
    (msgCardinality (toL "t2"), Severity.warning) ∈ analyze_tables c5WSchema :=
  ⟨(c5_relationship_rules_amended c5WSchema (toL "t1") c5WT1 (by decide)).1
      (toL "f1", toL "r1", toL "c1") (by decide),
   ((c5_relationship_rules_amended c5WSchema (toL "t2") c5WT2 (by decide)).2).1 (by decide),
   ((c5_relationship_rules_amended c5WSchema (toL "t2") c5WT2 (by decide)).2).2
      (toL "id") (by decide) (by decide) (by decide) (by decide)⟩

/-- C6.  `analyze` is a pure, deterministic function of the schema: two
analyzer states with the same `tables` produce identical results (same finding
list, element by element, in the per-table insertion order of the embedding),
regardless of previously accumulated errors, and re-running `analyze` on the
resulting state reproduces the same finding sequence. -/
theorem c6_analyze_deterministic (s1 s2 : AnalyzerState) (h : s1.tables = s2.tables) :
    analyze s1 = analyze s2 ∧ (analyze (analyze s1).1).2 = (analyze s1).2 := by
  constructor
  · unfold analyze
    rw [h]
  · rfl

/-- C6, witness: two states with the same tables and different accumulated
errors analyze identically. -/
theorem c6_witness :
    analyze c6WState1 = analyze c6WState2 ∧
    (analyze (analyze c6WState1).1).2 = (analyze c6WState1).2 :=
  c6_analyze_deterministic c6WState1 c6WState2 rfl

/-- C7, counterexample: `DDL_VALIDATOR.py` performs no case folding — with
table `Users` declared and a foreign key referencing `USERS` (same name up to
letter case), `analyze_tables` emits the non-existent-table error, refuting
the claim that such references resolve to the same entity with no error. -/
theorem c7_counterexample :
    (dictGet (extract_table_definitions c7Ddl) (toL "Users")).isSome = true ∧
    (dictGet (extract_table_definitions c7Ddl) (toL "orders")).map
      (fun t => t.foreign_keys) = some [(toL "user_id", toL "USERS", toL "user_id")] ∧
    pyLower (toL "USERS") = pyLower (toL "Users") ∧
    toL "USERS" ≠ toL "Users" ∧
    (msgFKTable (toL "user_id") (toL "orders") (toL "USERS"), Severity.error) ∈
      analyze_tables (extract_table_definitions c7Ddl) := by
  decide

/-- C7, amended: only `ddl_validator_v2.py` case-folds names — every table
key, column key, reference name and primary-key name recorded by its parser is
lower case (a fixpoint of `pyLower`); `DDL_VALIDATOR.py` does no folding, and
a reference differing only in case yields a non-existent-table error (the
counterexample). -/
theorem c7_case_folding_amended (sql : LC) : lowerTablesB (parse_schema sql []) = true := by
  unfold parse_schema
  have aux : ∀ (stmts : List LC) (init : List (LC × Table2)), lowerTablesB init = true →
      lowerTablesB (stmts.foldl
        (fun tbls stx => if isCreateStmt stx then parse_create_table stx tbls else tbls)
        init) = true := by
    intro stmts
    induction stmts with
    | nil => intro init h; exact h
    | cons s ss ih =>
      intro init h
      simp only [List.foldl_cons]
      refine ih _ ?_
      by_cases hc : isCreateStmt s = true
      · rw [if_pos hc]
        exact parse_create_table_lower s init h
      · simp only [Bool.not_eq_true] at hc
        simp [hc, h]
  exact aux _ [] rfl

/-- C8, counterexample: `analyze_tables` of `DDL_VALIDATOR.py` has no naming
check at all — with a foreign-key column `user` (no `_id` suffix) referencing
table `users`, no finding mentions the expected convention `users_id`,
refuting the claimed naming warning. -/
theorem c8_counterexample :
    (toL "user", toL "users", toL "user_id") ∈ c8OrdersT.foreign_keys ∧
    (toL "orders", c8OrdersT) ∈ c8Schema ∧
    endsWithB (toL "_id") (toL "user") = false ∧
    (analyze_tables c8Schema).all
      (fun f => !(containsSub (toL "users_id") f.1)) = true := by
  decide

/-- C8, amended: only `ddl_validator_v2.py` has the naming check — for every
foreign-key column whose name does not end in `_id`, `analyze` emits the
`should be named '{referenced_table}_id'` finding — but as an undifferentiated
string in the single findings list, with no warning severity to distinguish it
from integrity errors. -/
theorem c8_naming_amended (st : AnalyzerState) (tn cn : LC) (tbl : Table2) (col : Column2)
    (hmem : (tn, tbl) ∈ st.tables) (hcol : (cn, col) ∈ tbl.columns)
    (hfk : col.is_foreign_key = true) (hend : endsWithB (toL "_id") cn = false) :
    msg2Naming cn tbl.name col.references_table ∈ (analyze st).2 := by
  show msg2Naming cn tbl.name col.references_table ∈ v2_errors st.tables
  simp only [v2_errors, List.mem_flatten, List.mem_map]
  refine ⟨_, ⟨(tn, tbl), hmem, rfl⟩, ?_⟩
  simp only [List.mem_append]
  refine Or.inr ?_
  unfold check_naming_consistency
  simp only [List.mem_flatten, List.mem_map]
  refine ⟨_, ⟨(cn, col), hcol, rfl⟩, ?_⟩
  rw [hfk, hend]
  simp

/-- C8, witness for the amended claim: the naming finding fires for a concrete
foreign-key column `user`. -/
theorem c8_witness :
    msg2Naming (toL "user") c8WT.name c8WCol.references_table ∈ (analyze c8WState).2 :=
  c8_naming_amended c8WState (toL "orders") (toL "user") c8WT c8WCol
    (by decide) (by decide) rfl (by decide)

/-- C9.  The analyzer does not mutate the schema it is given: the `tables`
component of the state returned by `analyze` is exactly the input `tables`
(and the v1 `analyze_tables` is a pure function of its schema argument by
construction). -/
theorem c9_analyze_preserves_schema (st : AnalyzerState) :
    ((analyze st).1).tables = st.tables := rfl

/-- C10.  For every input whose statements (as split for `parse_schema`) are
either non-`CREATE` or contain no case-insensitive `SELECT` token — in
particular every ordinary `CREATE TABLE` script — `_parse_create_table`'s
table-name pattern `SELECT (\w+)` never matches, so the v2 parser records no
table and `analyze_sql_schema` returns the empty finding list. -/
theorem c10_v2_parses_nothing (sql : LC)
    (h : ∀ st ∈ splitStatements sql, isCreateStmt st = true →
      containsCI (toL "select") st = false) :
    parse_schema sql [] = [] ∧ analyze_sql_schema sql = [] := by
  have key : parse_schema sql [] = [] := by
    unfold parse_schema
    generalize hg : splitStatements sql = stmts at h
    clear hg
    induction stmts with
    | nil => rfl
    | cons s ss ih =>
      simp only [List.foldl_cons]
      have hstep : (if isCreateStmt s then parse_create_table s [] else []) =
          ([] : List (LC × Table2)) := by
        by_cases hc : isCreateStmt s = true
        · rw [if_pos hc]
          exact parse_create_table_skip [] (searchSelectName_eq_none (h s (by simp) hc))
        · simp [hc]
      rw [hstep]
      exact ih (fun st hst hc => h st (by simp [hst]) hc)
  refine ⟨key, ?_⟩
  unfold analyze_sql_schema
  rw [key]
  rfl

/-- C10, witness: an ordinary `CREATE TABLE` script produces no tables and no
findings from the v2 implementation. -/
theorem c10_witness :
    parse_schema c10WSql [] = [] ∧ analyze_sql_schema c10WSql = [] :=
  c10_v2_parses_nothing c10WSql (by decide)

end DdlValidator
